import Mathlib

/-!
Verification of the MRV carbon dashboard calculation core (`app.py`).

Numeric quantities are modelled as exact rationals (`ℚ`): every source
formula is a finite composition of additions, multiplications and halving
of decimal constants, so the idealised real-number semantics the code's
documentation states is captured exactly by `ℚ`.  Strings (fuel type, crop
type) are modelled as Lean `String`.  The report assembly in `main` is
modelled as pure functions of an input record, one per sector branch.
-/

namespace MRV

/-! ### Constants (emission factors), from the CONSTANTS block of `app.py` -/

def FERT_EF_N2O_N : ℚ := 1/100

def N2O_TO_N2O_RATIO : ℚ := 44/28

def N2O_GWP : ℚ := 265

def ELECTRICITY_EF_KG_PER_KWH : ℚ := 716/1000

def DIESEL_EF_KG_PER_L : ℚ := 268/100

def PETROL_EF_KG_PER_L : ℚ := 227/100

def RICE_AREA_EF_KG_PER_HA : ℚ := 7870

def RICE_YIELD_EF_KG_PER_KG : ℚ := 9/10

def STEEL_EF_T_PER_TONNE : ℚ := 255/100

def LIVESTOCK_EF_KG_PER_HEAD_PER_YEAR : ℚ := 9125/10

/-! ### Core calculation functions -/

/-- Function `compute_fertilizer_emissions` from `app.py`: three staged conversions,
N applied → N2O-N → N2O → CO2e. -/
def compute_fertilizer_emissions (n_kg : ℚ) : ℚ :=
  let n2o_n_emissions := n_kg * FERT_EF_N2O_N
  let n2o_emissions := n2o_n_emissions * N2O_TO_N2O_RATIO
  let co2e_emissions := n2o_emissions * N2O_GWP
  co2e_emissions

/-- Function `fertilizer_emission_factor_kg_per_kgN` from `app.py`: the precomposed
single factor (effective kg CO2e per kg N applied). -/
def fertilizer_emission_factor_kg_per_kgN : ℚ :=
  FERT_EF_N2O_N * N2O_TO_N2O_RATIO * N2O_GWP

/-- Function `compute_electricity_emissions` from `app.py`. -/
def compute_electricity_emissions (kwh : ℚ) : ℚ :=
  kwh * ELECTRICITY_EF_KG_PER_KWH

/-- Python's `str.lower()`, modelled as the per-character case mapping
`Char.toLower` over the string's characters (the relevant comparisons in
the code are against the ASCII string "diesel"). -/
def strLower (s : String) : String := ⟨s.data.map Char.toLower⟩

/-- Function `compute_fuel_emissions` from `app.py`: diesel factor on a
case-insensitive match of the fuel-type string, petrol factor otherwise. -/
def compute_fuel_emissions (litres : ℚ) (fuel_type : String) : ℚ :=
  let factor :=
    if strLower fuel_type = "diesel" then DIESEL_EF_KG_PER_L
    else PETROL_EF_KG_PER_L
  litres * factor

/-- Function `compute_rice_emissions` from `app.py`: the average of an area-based
and a yield-based estimate. -/
def compute_rice_emissions (area_ha : ℚ) (yield_tonnes : ℚ) : ℚ :=
  let area_emissions := area_ha * RICE_AREA_EF_KG_PER_HA
  let yield_emissions := yield_tonnes * 1000 * RICE_YIELD_EF_KG_PER_KG
  (area_emissions + yield_emissions) / 2

/-- Function `compute_steel_emissions` from `app.py`: tonnes CO2 converted to kg. -/
def compute_steel_emissions (tonnes : ℚ) : ℚ :=
  let emissions_tonnes := tonnes * STEEL_EF_T_PER_TONNE
  emissions_tonnes * 1000

/-- Function `compute_livestock_emissions` from `app.py` (headcount is a Python
`int`, modelled as `ℤ`). -/
def compute_livestock_emissions (headcount : ℤ) : ℚ :=
  (headcount : ℚ) * LIVESTOCK_EF_KG_PER_HEAD_PER_YEAR

/-- Function `kg_to_tonnes` from `app.py`. -/
def kg_to_tonnes (kg : ℚ) : ℚ := kg / 1000

/-! ### Report assembly (the post-submit computations in `main`) -/

/-- Inputs of the agriculture branch of the form in `main`. -/
structure AgriInputs where
  baseline_tco2e : ℚ
  area_ha : ℚ
  crop_type : String
  rice_yield_t : ℚ
  fert_n_kg : ℚ
  diesel_l : ℚ
  petrol_l : ℚ
  elec_kwh : ℚ
  livestock_count : ℤ

/-- Inputs of the alloy/steel branch of the form in `main`. -/
structure AlloyInputs where
  baseline_tco2e : ℚ
  steel_prod_t : ℚ
  elec_kwh_alloy : ℚ
  diesel_l_alloy : ℚ
  petrol_l_alloy : ℚ

/-- The rice line of the agriculture branch:
`compute_rice_emissions(area_ha, rice_yield_t) if crop_type == "Rice" else 0.0`. -/
def agri_rice_em (i : AgriInputs) : ℚ :=
  if i.crop_type = "Rice" then compute_rice_emissions i.area_ha i.rice_yield_t
  else 0

/-- List `em_values_kg` of the agriculture branch of `main`, in source order. -/
def agri_em_values_kg (i : AgriInputs) : List ℚ :=
  [ compute_fertilizer_emissions i.fert_n_kg,
    compute_fuel_emissions i.diesel_l "Diesel",
    compute_fuel_emissions i.petrol_l "Petrol",
    compute_electricity_emissions i.elec_kwh,
    agri_rice_em i,
    compute_livestock_emissions i.livestock_count ]

/-- Quantity `total_em_kg = float(sum(em_values_kg))` of the agriculture branch. -/
def agri_total_em_kg (i : AgriInputs) : ℚ := (agri_em_values_kg i).sum

/-- Quantity `total_em_t = kg_to_tonnes(total_em_kg)` of the agriculture branch. -/
def agri_total_em_t (i : AgriInputs) : ℚ := kg_to_tonnes (agri_total_em_kg i)

/-- Expression `potential_credits_t = max(0.0, baseline_tco2e - total_em_t) if
baseline_tco2e > 0 else 0.0`, the expression both sector branches use. -/
def potential_credits_t (baseline_tco2e : ℚ) (total_em_t : ℚ) : ℚ :=
  if baseline_tco2e > 0 then max 0 (baseline_tco2e - total_em_t) else 0

/-- The agriculture branch's potential-credit value. -/
def agri_potential_credits_t (i : AgriInputs) : ℚ :=
  potential_credits_t i.baseline_tco2e (agri_total_em_t i)

/-- List `em_values_kg` of the alloy/steel branch of `main`, in source order. -/
def alloy_em_values_kg (i : AlloyInputs) : List ℚ :=
  [ compute_steel_emissions i.steel_prod_t,
    compute_electricity_emissions i.elec_kwh_alloy,
    compute_fuel_emissions i.diesel_l_alloy "Diesel",
    compute_fuel_emissions i.petrol_l_alloy "Petrol" ]

/-- Quantity `total_em_kg = float(sum(em_values_kg))` of the alloy/steel branch. -/
def alloy_total_em_kg (i : AlloyInputs) : ℚ := (alloy_em_values_kg i).sum

/-- Quantity `total_em_t = kg_to_tonnes(total_em_kg)` of the alloy/steel branch. -/
def alloy_total_em_t (i : AlloyInputs) : ℚ := kg_to_tonnes (alloy_total_em_kg i)

/-- The alloy/steel branch's potential-credit value. -/
def alloy_potential_credits_t (i : AlloyInputs) : ℚ :=
  potential_credits_t i.baseline_tco2e (alloy_total_em_t i)

/-! ### Display rounding and the dominant-source scan of `_mrv_section_B_reporting` -/

/-- Round-half-to-even to an integer, the rounding used by
`pandas.Series.round` (IEEE/numpy semantics) on the exact value. -/
def roundHalfEven (q : ℚ) : ℤ :=
  let n := ⌊q⌋
  let frac := q - n
  if frac < 1/2 then n
  else if 1/2 < frac then n + 1
  else if n % 2 = 0 then n else n + 1

/-- The `.round(2)` applied to an emission value before display and before
the dominant-source scan. -/
def round2 (q : ℚ) : ℚ := (roundHalfEven (q * 100) : ℚ) / 100

/-- Pandas `Series.idxmax` over a list of values: index of the first
occurrence of the maximum (pandas returns the first maximal label). -/
def idxmax : List ℚ → ℕ
  | [] => 0
  | [_] => 0
  | x :: y :: t =>
    let j := idxmax (y :: t)
    if x < (y :: t).getD j 0 then j + 1 else 0

/-- The rounded emissions column of `df_display` for the agriculture report
(`df_breakdown["Emissions (kg CO₂e/year)"].round(2)`). -/
def agri_display_em (i : AgriInputs) : List ℚ :=
  (agri_em_values_kg i).map round2

/-- The rounded emissions column of `df_display` for the alloy report. -/
def alloy_display_em (i : AlloyInputs) : List ℚ :=
  (alloy_em_values_kg i).map round2

/-- Index of the dominant source of the agriculture report, as selected by
`df_display["Emissions (kg CO₂e/year)"].idxmax()`. -/
def agri_dominant_idx (i : AgriInputs) : ℕ := idxmax (agri_display_em i)

/-- Index of the dominant source of the alloy report, as selected by
`df_display["Emissions (kg CO₂e/year)"].idxmax()`. -/
def alloy_dominant_idx (i : AlloyInputs) : ℕ := idxmax (alloy_display_em i)

/-! ### Properties of the first-max scan -/

theorem idxmax_lt_length : ∀ (l : List ℚ), l ≠ [] → idxmax l < l.length := by
  intro l
  induction l with
  | nil => intro h; exact absurd rfl h
  | cons x xs ih =>
    intro _
    cases xs with
    | nil => simp [idxmax]
    | cons y t =>
      have hj := ih (by simp)
      simp only [idxmax]
      split
      · simpa [List.length_cons] using Nat.succ_lt_succ hj
      · simp

theorem idxmax_is_max :
    ∀ (l : List ℚ) (k : ℕ), k < l.length →
      l.getD k 0 ≤ l.getD (idxmax l) 0 := by
  intro l
  induction l with
  | nil => intro k hk; simp at hk
  | cons x xs ih =>
    intro k hk
    cases xs with
    | nil =>
      cases k with
      | zero => simp [idxmax]
      | succ k =>
        simp only [List.length_cons, List.length_nil] at hk
        omega
    | cons y t =>
      simp only [idxmax]
      split
      · rename_i hlt
        cases k with
        | zero =>
          simpa [List.getD_cons_zero, List.getD_cons_succ] using le_of_lt hlt
        | succ k =>
          have hk2 : k < (y :: t).length := by
            simpa [List.length_cons] using Nat.lt_of_succ_lt_succ hk
          simpa [List.getD_cons_succ] using ih k hk2
      · rename_i hge
        push_neg at hge
        cases k with
        | zero => simp
        | succ k =>
          have hk2 : k < (y :: t).length := by
            simpa [List.length_cons] using Nat.lt_of_succ_lt_succ hk
          have h1 := ih k hk2
          simpa [List.getD_cons_succ, List.getD_cons_zero] using h1.trans hge

theorem idxmax_first_strict :
    ∀ (l : List ℚ) (k : ℕ), k < idxmax l →
      l.getD k 0 < l.getD (idxmax l) 0 := by
  intro l
  induction l with
  | nil => intro k hk; simp [idxmax] at hk
  | cons x xs ih =>
    intro k hk
    cases xs with
    | nil => simp [idxmax] at hk
    | cons y t =>
      simp only [idxmax] at hk ⊢
      by_cases hlt : x < (y :: t).getD (idxmax (y :: t)) 0
      · rw [if_pos hlt] at hk ⊢
        cases k with
        | zero => simpa [List.getD_cons_zero, List.getD_cons_succ] using hlt
        | succ k =>
          have hk2 : k < idxmax (y :: t) := Nat.lt_of_succ_lt_succ hk
          simpa [List.getD_cons_succ] using ih k hk2
      · rw [if_neg hlt] at hk
        simp at hk

/-! ### Shared evaluation lemmas -/

theorem strLower_Diesel : strLower "Diesel" = "diesel" := by decide

theorem strLower_Petrol : strLower "Petrol" ≠ "diesel" := by decide

theorem strLower_petrol : strLower "petrol" ≠ "diesel" := by decide

/-! ### Non-negativity helper lemmas -/

theorem fert_nonneg (n : ℚ) (h : 0 ≤ n) : 0 ≤ compute_fertilizer_emissions n := by
  show 0 ≤ n * (1/100) * (44/28) * 265
  exact mul_nonneg (mul_nonneg (mul_nonneg h (by norm_num)) (by norm_num)) (by norm_num)

theorem elec_nonneg (kwh : ℚ) (h : 0 ≤ kwh) :
    0 ≤ compute_electricity_emissions kwh := by
  show 0 ≤ kwh * (716/1000)
  exact mul_nonneg h (by norm_num)

theorem fuel_nonneg (litres : ℚ) (fuel_type : String) (h : 0 ≤ litres) :
    0 ≤ compute_fuel_emissions litres fuel_type := by
  show 0 ≤ litres *
    (if strLower fuel_type = "diesel" then DIESEL_EF_KG_PER_L
     else PETROL_EF_KG_PER_L)
  split
  · exact mul_nonneg h (by norm_num [DIESEL_EF_KG_PER_L])
  · exact mul_nonneg h (by norm_num [PETROL_EF_KG_PER_L])

theorem rice_nonneg (area_ha yield_tonnes : ℚ)
    (ha : 0 ≤ area_ha) (hy : 0 ≤ yield_tonnes) :
    0 ≤ compute_rice_emissions area_ha yield_tonnes := by
  show 0 ≤ (area_ha * 7870 + yield_tonnes * 1000 * (9/10)) / 2
  have h1 : 0 ≤ area_ha * (7870:ℚ) := mul_nonneg ha (by norm_num)
  have h2 : 0 ≤ yield_tonnes * 1000 * ((9:ℚ)/10) :=
    mul_nonneg (mul_nonneg hy (by norm_num)) (by norm_num)
  linarith

theorem steel_nonneg (tonnes : ℚ) (h : 0 ≤ tonnes) :
    0 ≤ compute_steel_emissions tonnes := by
  show 0 ≤ tonnes * (255/100) * 1000
  exact mul_nonneg (mul_nonneg h (by norm_num)) (by norm_num)

theorem livestock_nonneg (headcount : ℤ) (h : 0 ≤ headcount) :
    0 ≤ compute_livestock_emissions headcount := by
  show 0 ≤ (headcount : ℚ) * (9125/10)
  exact mul_nonneg (by exact_mod_cast h) (by norm_num)

theorem agri_rice_em_nonneg (i : AgriInputs)
    (ha : 0 ≤ i.area_ha) (hy : 0 ≤ i.rice_yield_t) : 0 ≤ agri_rice_em i := by
  unfold agri_rice_em
  split
  · exact rice_nonneg _ _ ha hy
  · exact le_refl 0

/-- All form quantities of an agriculture submission are non-negative (the
form widgets all carry `min_value=0`). -/
def AgriNonneg (i : AgriInputs) : Prop :=
  0 ≤ i.area_ha ∧ 0 ≤ i.rice_yield_t ∧ 0 ≤ i.fert_n_kg ∧ 0 ≤ i.diesel_l ∧
    0 ≤ i.petrol_l ∧ 0 ≤ i.elec_kwh ∧ 0 ≤ i.livestock_count

/-- All form quantities of an alloy submission are non-negative. -/
def AlloyNonneg (i : AlloyInputs) : Prop :=
  0 ≤ i.steel_prod_t ∧ 0 ≤ i.elec_kwh_alloy ∧ 0 ≤ i.diesel_l_alloy ∧
    0 ≤ i.petrol_l_alloy

/-! ### Claims -/

/-- C1: after a report submission the potential-credit value equals
`max 0 (baseline_t - total_t)` when `baseline_t > 0`, equals `0` when
`baseline_t = 0` (the "not supplied" default), and is never negative. -/
theorem potential_credits_spec (baseline_t total_t : ℚ) :
    (0 < baseline_t →
      potential_credits_t baseline_t total_t = max 0 (baseline_t - total_t)) ∧
    (baseline_t = 0 → potential_credits_t baseline_t total_t = 0) ∧
    0 ≤ potential_credits_t baseline_t total_t := by
  unfold potential_credits_t
  refine ⟨fun hb => if_pos hb, fun hb => ?_, ?_⟩
  · simp [hb]
  · split
    · exact le_max_left 0 _
    · exact le_refl 0

/-- Witness for C1 at `baseline_t = 10, total_t = 4`, at
`baseline_t = 0, total_t = 7`, and at `baseline_t = 4, total_t = 10`. -/
theorem potential_credits_spec_witness :
    potential_credits_t 10 4 = max 0 (10 - 4) ∧
    potential_credits_t 0 7 = 0 ∧
    0 ≤ potential_credits_t 4 10 :=
  ⟨(potential_credits_spec 10 4).1 (by norm_num),
   (potential_credits_spec 0 7).2.1 rfl,
   (potential_credits_spec 4 10).2.2⟩

/-- C2: in both sector scenarios the report's total kilograms is the sum of
the per-source emission values, and the total tonnes is that value divided
by 1000 via `kg_to_tonnes` (a round-trip: tonnes times 1000 gives back
kilograms). -/
theorem totals_aggregate_spec :
    (∀ i : AgriInputs,
      agri_total_em_kg i = (agri_em_values_kg i).sum ∧
      agri_total_em_t i = agri_total_em_kg i / 1000 ∧
      agri_total_em_t i * 1000 = agri_total_em_kg i) ∧
    (∀ i : AlloyInputs,
      alloy_total_em_kg i = (alloy_em_values_kg i).sum ∧
      alloy_total_em_t i = alloy_total_em_kg i / 1000 ∧
      alloy_total_em_t i * 1000 = alloy_total_em_kg i) := by
  constructor
  · intro i
    refine ⟨rfl, rfl, ?_⟩
    unfold agri_total_em_t kg_to_tonnes
    field_simp
  · intro i
    refine ⟨rfl, rfl, ?_⟩
    unfold alloy_total_em_t kg_to_tonnes
    field_simp

/-- C3: `compute_fuel_emissions litres fuel_type` is `litres * 2.68` exactly
when the fuel type lowercases to "diesel", and `litres * 2.27` for every
other string. -/
theorem fuel_dispatch_spec (litres : ℚ) (fuel_type : String) :
    (strLower fuel_type = "diesel" →
      compute_fuel_emissions litres fuel_type = litres * (268/100)) ∧
    (strLower fuel_type ≠ "diesel" →
      compute_fuel_emissions litres fuel_type = litres * (227/100)) := by
  unfold compute_fuel_emissions DIESEL_EF_KG_PER_L PETROL_EF_KG_PER_L
  constructor
  · intro h
    simp [h]
  · intro h
    simp [h]

/-- Witness for C3: "Diesel" takes the diesel factor; "Petrol" and the
empty string fall through to the petrol factor. -/
theorem fuel_dispatch_spec_witness :
    compute_fuel_emissions 3 "Diesel" = 3 * (268/100) ∧
    compute_fuel_emissions 3 "Petrol" = 3 * (227/100) ∧
    compute_fuel_emissions 3 "" = 3 * (227/100) :=
  ⟨(fuel_dispatch_spec 3 "Diesel").1 (by decide),
   (fuel_dispatch_spec 3 "Petrol").2 (by decide),
   (fuel_dispatch_spec 3 "").2 (by decide)⟩

/-- C4: the staged fertilizer computation equals
`n_kg * 0.01 * (44/28) * 265`, and also equals `n_kg` times the precomposed
single factor `fertilizer_emission_factor_kg_per_kgN`. -/
theorem fertilizer_staged_spec (n_kg : ℚ) :
    compute_fertilizer_emissions n_kg = n_kg * (1/100) * (44/28) * 265 ∧
    compute_fertilizer_emissions n_kg
      = n_kg * fertilizer_emission_factor_kg_per_kgN := by
  unfold compute_fertilizer_emissions fertilizer_emission_factor_kg_per_kgN
      FERT_EF_N2O_N N2O_TO_N2O_RATIO N2O_GWP
  constructor <;> ring

/-- C5: the rice calculator equals the averaged closed form, and the
agriculture report's rice-paddies line contributes that value exactly when
the crop type is "Rice" and zero otherwise. -/
theorem rice_spec (area_ha yield_tonnes : ℚ) (i : AgriInputs) :
    compute_rice_emissions area_ha yield_tonnes
      = (area_ha * 7870 + yield_tonnes * 1000 * (9/10)) / 2 ∧
    (i.crop_type = "Rice" →
      agri_rice_em i = compute_rice_emissions i.area_ha i.rice_yield_t) ∧
    (i.crop_type ≠ "Rice" → agri_rice_em i = 0) := by
  refine ⟨?_, fun h => ?_, fun h => ?_⟩
  · unfold compute_rice_emissions RICE_AREA_EF_KG_PER_HA RICE_YIELD_EF_KG_PER_KG
    ring
  · unfold agri_rice_em
    rw [if_pos h]
  · unfold agri_rice_em
    rw [if_neg h]

/-- A concrete agriculture input growing rice (2 ha, 3 t yield). -/
def agriRiceSample : AgriInputs :=
  ⟨0, 2, "Rice", 3, 0, 0, 0, 0, 0⟩

/-- A concrete agriculture input growing a non-rice crop. -/
def agriGeneralSample : AgriInputs :=
  ⟨0, 2, "General", 0, 0, 0, 0, 0, 0⟩

/-- Witness for C5: the rice line is the rice formula for a "Rice" input
and zero for a "General" input. -/
theorem rice_spec_witness :
    compute_rice_emissions 2 3 = (2 * 7870 + 3 * 1000 * (9/10)) / 2 ∧
    agri_rice_em agriRiceSample = compute_rice_emissions 2 3 ∧
    agri_rice_em agriGeneralSample = 0 :=
  ⟨(rice_spec 2 3 agriRiceSample).1,
   (rice_spec 2 3 agriRiceSample).2.1 rfl,
   (rice_spec 2 3 agriGeneralSample).2.2 (by decide)⟩

/-- The alloy end-to-end scenario of the spec:
`steel_prod_t=10, elec_kwh=1000, diesel_l=0, petrol_l=0, baseline_t=30`. -/
def alloyScenario : AlloyInputs := ⟨30, 10, 1000, 0, 0⟩

/-- C6: for the alloy scenario the per-source values are steel 25500 kg and
electricity 716 kg, the total is 26216 kg = 26.216 t, and the potential
credits equal `max 0 (30 - 26.216) = 3.784` t. -/
theorem alloy_scenario_spec :
    alloy_em_values_kg alloyScenario = [25500, 716, 0, 0] ∧
    alloy_total_em_kg alloyScenario = 26216 ∧
    alloy_total_em_t alloyScenario = 26216/1000 ∧
    alloy_potential_credits_t alloyScenario = max 0 (30 - 26216/1000) ∧
    alloy_potential_credits_t alloyScenario = 3784/1000 := by
  have hvals : alloy_em_values_kg alloyScenario = [25500, 716, 0, 0] := by
    norm_num [alloyScenario, alloy_em_values_kg, compute_steel_emissions,
      compute_electricity_emissions, compute_fuel_emissions,
      STEEL_EF_T_PER_TONNE, ELECTRICITY_EF_KG_PER_KWH]
  have hkg : alloy_total_em_kg alloyScenario = 26216 := by
    rw [alloy_total_em_kg, hvals]
    norm_num
  have ht : alloy_total_em_t alloyScenario = 26216/1000 := by
    unfold alloy_total_em_t kg_to_tonnes
    rw [hkg]
  have hcred : alloy_potential_credits_t alloyScenario
      = max 0 (30 - 26216/1000) := by
    unfold alloy_potential_credits_t potential_credits_t
    rw [ht]
    norm_num [alloyScenario]
  have hval : max (0:ℚ) (30 - 26216/1000) = 3784/1000 := by
    rw [max_eq_right (by norm_num : (0:ℚ) ≤ 30 - 26216/1000)]
    norm_num
  exact ⟨hvals, hkg, ht, hcred, hcred.trans hval⟩

/-- C7: in both sector reports, the dominant-source index selected by the
interpretation section points at a maximal entry of the (rounded) emission
column, and every entry strictly before it is strictly smaller — the
first-max-wins tie-break. -/
theorem dominant_first_max_spec :
    (∀ i : AgriInputs,
      agri_dominant_idx i < (agri_display_em i).length ∧
      (∀ k, k < (agri_display_em i).length →
        (agri_display_em i).getD k 0
          ≤ (agri_display_em i).getD (agri_dominant_idx i) 0) ∧
      (∀ k, k < agri_dominant_idx i →
        (agri_display_em i).getD k 0
          < (agri_display_em i).getD (agri_dominant_idx i) 0)) ∧
    (∀ i : AlloyInputs,
      alloy_dominant_idx i < (alloy_display_em i).length ∧
      (∀ k, k < (alloy_display_em i).length →
        (alloy_display_em i).getD k 0
          ≤ (alloy_display_em i).getD (alloy_dominant_idx i) 0) ∧
      (∀ k, k < alloy_dominant_idx i →
        (alloy_display_em i).getD k 0
          < (alloy_display_em i).getD (alloy_dominant_idx i) 0)) := by
  constructor
  · intro i
    refine ⟨?_, fun k hk => idxmax_is_max _ k hk,
      fun k hk => idxmax_first_strict _ k hk⟩
    exact idxmax_lt_length _ (by simp [agri_display_em, agri_em_values_kg])
  · intro i
    refine ⟨?_, fun k hk => idxmax_is_max _ k hk,
      fun k hk => idxmax_first_strict _ k hk⟩
    exact idxmax_lt_length _ (by simp [alloy_display_em, alloy_em_values_kg])

/-- A concrete agriculture submission whose dominant source is livestock
(index 5): diesel 50 L, electricity 200 kWh, 5 head of cattle. -/
def agriScenario : AgriInputs := ⟨0, 0, "General", 0, 0, 50, 0, 200, 5⟩

/-- A concrete alloy submission whose dominant source is steel (index 0). -/
def alloyDominantSample : AlloyInputs := ⟨0, 10, 1000, 0, 0⟩

/-- Witness for C7 on both sectors: the agriculture sample's dominant index
is in range and dominates index 1 strictly (livestock beats diesel), and
the alloy sample's dominant index dominates index 1. -/
theorem dominant_first_max_spec_witness :
    agri_dominant_idx agriScenario < (agri_display_em agriScenario).length ∧
    (agri_display_em agriScenario).getD 1 0
      ≤ (agri_display_em agriScenario).getD (agri_dominant_idx agriScenario) 0 ∧
    (agri_display_em agriScenario).getD 1 0
      < (agri_display_em agriScenario).getD (agri_dominant_idx agriScenario) 0 ∧
    alloy_dominant_idx alloyDominantSample
      < (alloy_display_em alloyDominantSample).length ∧
    (alloy_display_em alloyDominantSample).getD 1 0
      ≤ (alloy_display_em alloyDominantSample).getD
          (alloy_dominant_idx alloyDominantSample) 0 := by
  have hrice : agri_rice_em agriScenario = 0 := by
    unfold agri_rice_em
    rw [if_neg (by decide : ¬ (agriScenario.crop_type = "Rice"))]
  have hvals : agri_em_values_kg agriScenario = [0, 134, 0, 716/5, 0, 9125/2] := by
    rw [agri_em_values_kg, hrice]
    norm_num [agriScenario, compute_fertilizer_emissions,
      compute_fuel_emissions, compute_electricity_emissions,
      compute_livestock_emissions, FERT_EF_N2O_N, N2O_TO_N2O_RATIO, N2O_GWP,
      DIESEL_EF_KG_PER_L, PETROL_EF_KG_PER_L, ELECTRICITY_EF_KG_PER_KWH,
      LIVESTOCK_EF_KG_PER_HEAD_PER_YEAR, strLower_Diesel, strLower_Petrol]
  have hdisp : agri_display_em agriScenario = [0, 134, 0, 716/5, 0, 9125/2] := by
    rw [agri_display_em, hvals]
    norm_num [round2, roundHalfEven]
  have hidx : agri_dominant_idx agriScenario = 5 := by
    rw [agri_dominant_idx, hdisp]
    norm_num [idxmax]
  refine ⟨(dominant_first_max_spec.1 agriScenario).1,
    (dominant_first_max_spec.1 agriScenario).2.1 1
      (by simp [agri_display_em, agri_em_values_kg]),
    (dominant_first_max_spec.1 agriScenario).2.2 1
      (by rw [hidx]; norm_num),
    (dominant_first_max_spec.2 alloyDominantSample).1,
    (dominant_first_max_spec.2 alloyDominantSample).2.1 1
      (by simp [alloy_display_em, alloy_em_values_kg])⟩

/-- C8: every calculator returns a non-negative value on non-negative
inputs, and the aggregated totals (kg and tonnes) of both sector reports
are non-negative whenever all form quantities are non-negative. -/
theorem nonneg_spec :
    (∀ n : ℚ, 0 ≤ n → 0 ≤ compute_fertilizer_emissions n) ∧
    (∀ kwh : ℚ, 0 ≤ kwh → 0 ≤ compute_electricity_emissions kwh) ∧
    (∀ (litres : ℚ) (fuel_type : String), 0 ≤ litres →
      0 ≤ compute_fuel_emissions litres fuel_type) ∧
    (∀ a y : ℚ, 0 ≤ a → 0 ≤ y → 0 ≤ compute_rice_emissions a y) ∧
    (∀ t : ℚ, 0 ≤ t → 0 ≤ compute_steel_emissions t) ∧
    (∀ c : ℤ, 0 ≤ c → 0 ≤ compute_livestock_emissions c) ∧
    (∀ i : AgriInputs, AgriNonneg i →
      0 ≤ agri_total_em_kg i ∧ 0 ≤ agri_total_em_t i) ∧
    (∀ i : AlloyInputs, AlloyNonneg i →
      0 ≤ alloy_total_em_kg i ∧ 0 ≤ alloy_total_em_t i) := by
  refine ⟨fert_nonneg, elec_nonneg, ?_, rice_nonneg, steel_nonneg,
    livestock_nonneg, ?_, ?_⟩
  · intro litres fuel_type h
    exact fuel_nonneg litres fuel_type h
  · intro i hi
    obtain ⟨h1, h2, h3, h4, h5, h6, h7⟩ := hi
    have hkg : 0 ≤ agri_total_em_kg i := by
      unfold agri_total_em_kg agri_em_values_kg
      simp only [List.sum_cons, List.sum_nil, add_zero]
      have hr := agri_rice_em_nonneg i h1 h2
      have hf := fert_nonneg i.fert_n_kg h3
      have hd := fuel_nonneg i.diesel_l "Diesel" h4
      have hp := fuel_nonneg i.petrol_l "Petrol" h5
      have he := elec_nonneg i.elec_kwh h6
      have hl := livestock_nonneg i.livestock_count h7
      linarith
    refine ⟨hkg, ?_⟩
    unfold agri_total_em_t kg_to_tonnes
    exact div_nonneg hkg (by norm_num)
  · intro i hi
    obtain ⟨h1, h2, h3, h4⟩ := hi
    have hkg : 0 ≤ alloy_total_em_kg i := by
      unfold alloy_total_em_kg alloy_em_values_kg
      simp only [List.sum_cons, List.sum_nil, add_zero]
      have hs := steel_nonneg i.steel_prod_t h1
      have he := elec_nonneg i.elec_kwh_alloy h2
      have hd := fuel_nonneg i.diesel_l_alloy "Diesel" h3
      have hp := fuel_nonneg i.petrol_l_alloy "Petrol" h4
      linarith
    refine ⟨hkg, ?_⟩
    unfold alloy_total_em_t kg_to_tonnes
    exact div_nonneg hkg (by norm_num)

/-- Witness for C8 at concrete non-negative inputs for every calculator and
for both sector reports. -/
theorem nonneg_spec_witness :
    0 ≤ compute_fertilizer_emissions 100 ∧
    0 ≤ compute_electricity_emissions 200 ∧
    0 ≤ compute_fuel_emissions 50 "Diesel" ∧
    0 ≤ compute_rice_emissions 2 3 ∧
    0 ≤ compute_steel_emissions 10 ∧
    0 ≤ compute_livestock_emissions 5 ∧
    (0 ≤ agri_total_em_kg agriRiceSample ∧ 0 ≤ agri_total_em_t agriRiceSample) ∧
    (0 ≤ alloy_total_em_kg alloyScenario ∧ 0 ≤ alloy_total_em_t alloyScenario) :=
  ⟨nonneg_spec.1 100 (by norm_num),
   nonneg_spec.2.1 200 (by norm_num),
   nonneg_spec.2.2.1 50 "Diesel" (by norm_num),
   nonneg_spec.2.2.2.1 2 3 (by norm_num) (by norm_num),
   nonneg_spec.2.2.2.2.1 10 (by norm_num),
   nonneg_spec.2.2.2.2.2.1 5 (by norm_num),
   nonneg_spec.2.2.2.2.2.2.1 agriRiceSample
     (by refine ⟨?_, ?_, ?_, ?_, ?_, ?_, ?_⟩ <;> norm_num [agriRiceSample]),
   nonneg_spec.2.2.2.2.2.2.2 alloyScenario
     (by refine ⟨?_, ?_, ?_, ?_⟩ <;> norm_num [alloyScenario])⟩

/-- C9: for non-negative baseline and total, the potential-credit value
never exceeds the supplied baseline. -/
theorem credits_le_baseline_spec (baseline_t total_t : ℚ)
    (hb : 0 ≤ baseline_t) (ht : 0 ≤ total_t) :
    potential_credits_t baseline_t total_t ≤ baseline_t := by
  unfold potential_credits_t
  split
  · exact max_le hb (by linarith)
  · exact hb

/-- Witness for C9 at `baseline_t = 30, total_t = 26.216`. -/
theorem credits_le_baseline_spec_witness :
    potential_credits_t 30 (26216/1000) ≤ 30 :=
  credits_le_baseline_spec 30 (26216/1000) (by norm_num) (by norm_num)

/-- C10: every calculator is total: it equals the same closed-form
multiplication for all rational inputs (any string for the fuel type),
with no error branch, so negative inputs yield the correspondingly
scaled negative outputs. -/
theorem total_closed_form_spec :
    (∀ q : ℚ, compute_fertilizer_emissions q = q * (1/100) * (44/28) * 265) ∧
    (∀ q : ℚ, compute_electricity_emissions q = q * (716/1000)) ∧
    (∀ (q : ℚ) (s : String), compute_fuel_emissions q s
      = q * (if strLower s = "diesel" then 268/100 else 227/100)) ∧
    (∀ a y : ℚ, compute_rice_emissions a y
      = (a * 7870 + y * 1000 * (9/10)) / 2) ∧
    (∀ q : ℚ, compute_steel_emissions q = q * (255/100) * 1000) ∧
    (∀ c : ℤ, compute_livestock_emissions c = (c : ℚ) * (9125/10)) ∧
    compute_fertilizer_emissions (-200) < 0 ∧
    compute_fuel_emissions (-50) "petrol" < 0 ∧
    compute_steel_emissions (-10) < 0 := by
  refine ⟨fun q => rfl, fun q => rfl, fun q s => rfl, fun a y => rfl,
    fun q => rfl, fun c => rfl, ?_, ?_, ?_⟩
  · show (-200 : ℚ) * (1/100) * (44/28) * 265 < 0
    norm_num
  · show (-50 : ℚ) *
      (if strLower "petrol" = "diesel" then DIESEL_EF_KG_PER_L
       else PETROL_EF_KG_PER_L) < 0
    rw [if_neg strLower_petrol]
    norm_num [PETROL_EF_KG_PER_L]
  · show (-10 : ℚ) * (255/100) * 1000 < 0
    norm_num

end MRV
